import Mathlib

/-!
Verification of the OmniView viewport-session grid (`src/components/BrowserGrid.tsx`).

The repository file contains two revisions of the component: a "Ghost Mode"
revision (one boolean bundling unique-identity + cache-busting isolation) and an
earlier revision with separate `isStateless` / `isCacheBust` toggles.  Both share
the same scheduling, locking, refresh and sandbox logic; where they differ we
embed both.

React state updates (`setFrames(prev => ...)`) are pure functions on the frame
list, so the store operations become Lean functions `List FrameData → List
FrameData`.  JavaScript timers (`setTimeout` / `clearTimeout` over
`timeoutsRef`) are modelled by a pending multiset of `Timeout` records; each
`scheduleFrames` call stamps the timeouts it creates with a fresh batch number
(the identity of the timer handles it pushes into `timeoutsRef`), and
`clearTimeouts` empties the pending set, exactly as `clearTimeout` on every
stored handle does.  A timer can only fire while its record is pending
(`SchedStep.fire` requires membership), mirroring the fact that a cleared
JavaScript timeout never runs.  `Date.now()` is modelled as an explicit `now`
argument, and `generateSessionId()` (random) as an explicit fresh-identity
function, so every definition stays executable and deterministic.
-/

/-- Status type `'idle' | 'scheduled' | 'active'` from `FrameData` in the source. -/
inductive Status where
  | idle
  | scheduled
  | active
deriving DecidableEq, Repr

/-- The `FrameData` record of the source.  `key` is the reload generation,
`sessionId` the per-frame identity token (absent in the older revision, which
we model by simply ignoring the field there). -/
structure FrameData where
  id : Nat
  currentUrl : String
  key : Nat
  isLocked : Bool
  status : Status
  sessionId : String
deriving DecidableEq, Repr

/-- One pending `setTimeout` created by `scheduleFrames`: `batch` identifies
the `scheduleFrames` call that created it (the timer-handle identity), `frameId`
the captured frame id, `fireAt` the delay `index * loadingDelay`. -/
structure Timeout where
  batch : Nat
  frameId : Nat
  fireAt : Nat
deriving DecidableEq, Repr

/-- Combined component state: the `frames` React state, the timers held in
`timeoutsRef`, the next batch stamp, and the `loadingDelay` setting. -/
structure SchedState where
  frames : List FrameData
  pending : List Timeout
  nextBatch : Nat
  loadingDelay : Nat
deriving DecidableEq, Repr

/-- Body of the `setTimeout` callback in `scheduleFrames`: the frame whose id
matches is set `active` with `key` bumped; every other frame is returned
unchanged.  (Note: the source performs no `status == scheduled` check.) -/
def activateFrame (frameId : Nat) (frames : List FrameData) : List FrameData :=
  frames.map fun f =>
    if f.id = frameId then { f with status := Status.active, key := f.key + 1 } else f

/-- Source `clearTimeouts`: cancel every stored timer and empty `timeoutsRef`. -/
def clearTimeouts (s : SchedState) : SchedState :=
  { s with pending := [] }

/-- Source `scheduleFrames(framesToSchedule)`: first `clearTimeouts()`, then create one
timeout per listed id, delayed by `index * loadingDelay`. -/
def scheduleFrames (ids : List Nat) (s : SchedState) : SchedState :=
  let s0 := clearTimeouts s
  { s0 with
    pending := ids.enum.map fun p =>
      { batch := s.nextBatch, frameId := p.2, fireAt := p.1 * s.loadingDelay },
    nextBatch := s.nextBatch + 1 }

/-- Source `handleRefresh(id)`: bump `key` of the matching frame, nothing else. -/
def handleRefresh (id : Nat) (frames : List FrameData) : List FrameData :=
  frames.map fun f => if f.id = id then { f with key := f.key + 1 } else f

/-- Source `handleUrlChange(id, newUrl)`: set the matching frame's URL, lock it and
mark it `active` in one synchronous update.  (The source does not touch
`key`.) -/
def handleUrlChange (id : Nat) (newUrl : String) (frames : List FrameData) : List FrameData :=
  frames.map fun f =>
    if f.id = id then
      { f with currentUrl := newUrl, isLocked := true, status := Status.active }
    else f

/-- Source `handleUrlChange` at the component level: it only calls `setFrames`, so the
timer state is untouched. -/
def handleUrlChangeSys (id : Nat) (newUrl : String) (s : SchedState) : SchedState :=
  { s with frames := handleUrlChange id newUrl s.frames }

/-- Source `toggleLock(id)`: flip the matching frame's lock flag. -/
def toggleLock (id : Nat) (frames : List FrameData) : List FrameData :=
  frames.map fun f => if f.id = id then { f with isLocked := !f.isLocked } else f

/-- Selection filter of `handleRefreshAll`:
`frames.filter(f => f.currentUrl && (!f.isLocked || f.status !== 'idle'))`,
projected to ids. -/
def refreshAllSelect (frames : List FrameData) : List Nat :=
  (frames.filter fun f =>
    f.currentUrl != "" && (!f.isLocked || f.status != Status.idle)).map FrameData.id

/-- Source `handleRefreshAll()` of the Ghost-Mode revision: compute the id list from
the current frames, regenerate every frame's `sessionId` when `ghostMode` is
on, mark the selected ids `scheduled`, and hand the id list to
`scheduleFrames`.  `freshId` stands for the stream of `generateSessionId()`
results. -/
def handleRefreshAll (ghostMode : Bool) (freshId : Nat → String)
    (frames : List FrameData) : List FrameData × List Nat :=
  let ids := refreshAllSelect frames
  let frames1 :=
    if ghostMode then frames.map fun f => { f with sessionId := freshId f.id } else frames
  let frames2 := frames1.map fun f =>
    if ids.contains f.id then { f with status := Status.scheduled } else f
  (frames2, ids)

/-- Source `handleRefreshAll` at the component level, including the `scheduleFrames`
call on the computed id list. -/
def handleRefreshAllSys (ghostMode : Bool) (freshId : Nat → String)
    (s : SchedState) : SchedState :=
  let r := handleRefreshAll ghostMode freshId s.frames
  scheduleFrames r.2 { s with frames := r.1 }

/-- The master-URL effect body: when syncing and the master URL is non-empty,
push the URL to every unlocked frame and mark it `scheduled`, and collect the
unlocked ids (computed from the pre-update frames, as in the source); when the
master URL is empty, reset unlocked frames; otherwise do nothing.  Returns the
updated frames and the id list passed to `scheduleFrames` (empty when no
scheduling happens). -/
def syncEffect (isSyncing : Bool) (masterUrl : String)
    (frames : List FrameData) : List FrameData × List Nat :=
  if isSyncing && masterUrl != "" then
    (frames.map fun f =>
      if f.isLocked then f
      else { f with currentUrl := masterUrl, status := Status.scheduled },
     (frames.filter fun f => !f.isLocked).map FrameData.id)
  else if masterUrl == "" then
    (frames.map fun f =>
      if f.isLocked then f else { f with currentUrl := "", status := Status.idle },
     [])
  else (frames, [])

/-- The master-URL effect at the component level, including the
`scheduleFrames(unlockedIds)` call. -/
def syncEffectSys (isSyncing : Bool) (masterUrl : String) (s : SchedState) : SchedState :=
  let r := syncEffect isSyncing masterUrl s.frames
  if isSyncing && masterUrl != "" then scheduleFrames r.2 { s with frames := r.1 }
  else { s with frames := r.1 }

/-- JavaScript `String.prototype.trim`: drop whitespace from both ends.
(Expressed over the character list so the kernel can evaluate it; the core
`String.trim` is semantically identical but defined through `Substring`
functions that do not reduce.) -/
def jsTrim (s : String) : String :=
  String.mk (((s.data.dropWhile Char.isWhitespace).reverse.dropWhile Char.isWhitespace).reverse)

/-- JavaScript `s.startsWith(p)`. -/
def jsStartsWith (s p : String) : Bool :=
  p.data.isPrefixOf s.data

/-- JavaScript `s.includes(c)` for a one-character needle. -/
def jsContainsChar (s : String) (c : Char) : Bool :=
  s.data.contains c

/-- Source `getDisplayUrl(urlStr, sessionId)` of the Ghost-Mode revision.  `Date.now()`
is the explicit `now` argument. -/
def getDisplayUrl (ghostMode : Bool) (urlStr : String) (sessionId : String)
    (now : Nat) : String :=
  if urlStr == "" then ""
  else
    let final0 := jsTrim urlStr
    let final1 :=
      if !jsStartsWith final0 "http://" && !jsStartsWith final0 "https://" then
        "https://" ++ final0
      else final0
    if ghostMode then
      let separator := if jsContainsChar final1 '?' then "&" else "?"
      final1 ++ separator ++ "_uid=" ++ sessionId ++ "&_cb=" ++ toString now
    else final1

/-- Source `getDisplayUrl(urlStr)` of the older revision: cache-busting only. -/
def getDisplayUrlCB (isCacheBust : Bool) (urlStr : String) (now : Nat) : String :=
  if urlStr == "" then ""
  else
    let final0 := jsTrim urlStr
    let final1 :=
      if !jsStartsWith final0 "http://" && !jsStartsWith final0 "https://" then
        "https://" ++ final0
      else final0
    if isCacheBust then
      let separator := if jsContainsChar final1 '?' then "&" else "?"
      final1 ++ separator ++ "_cb=" ++ toString now
    else final1

/-- The base sandbox string shared by both revisions of `getSandboxRules`. -/
def sandboxBase : String :=
  "allow-scripts allow-forms allow-popups allow-modals allow-popups-to-escape-sandbox allow-downloads"

/-- Source `getSandboxRules()` of the Ghost-Mode revision. -/
def getSandboxRules (ghostMode : Bool) : String :=
  if ghostMode then sandboxBase else sandboxBase ++ " allow-same-origin"

/-- Source `getSandboxRules()` of the older revision, keyed on `isStateless`. -/
def getSandboxRulesStateless (isStateless : Bool) : String :=
  if isStateless then sandboxBase else sandboxBase ++ " allow-same-origin"

/-- Split a character list at every occurrence of `c` (the semantics of
splitting a string on a one-character separator). -/
def splitOnChar (c : Char) (l : List Char) : List (List Char) :=
  l.foldr (fun x acc => if x = c then [] :: acc else (x :: acc.headD []) :: acc.tail) [[]]

/-- The capability set denoted by a sandbox attribute string: its
space-separated tokens. -/
def capTokens (rules : String) : List String :=
  (splitOnChar ' ' rules.data).map String.mk

/-- Whether a sandbox string grants the same-origin / persistent-storage
capability. -/
def sameOriginGranted (rules : String) : Bool :=
  (capTokens rules).contains "allow-same-origin"

/-- Isolation-mode flag set from the specification's data model. -/
structure IsolationMode where
  cacheBust : Bool
  stateless : Bool
  uniqueIdentity : Bool
deriving DecidableEq, Repr

/-- The mode set realised by the Ghost-Mode toggle: ghost mode bundles
unique-identity and cache-busting (it appends both `_uid` and `_cb`). -/
def ghostIsolation (ghostMode : Bool) : IsolationMode :=
  { cacheBust := ghostMode, stateless := false, uniqueIdentity := ghostMode }

/-- The mode set realised by the older revision's independent toggles. -/
def togglesIsolation (isStateless isCacheBust : Bool) : IsolationMode :=
  { cacheBust := isCacheBust, stateless := isStateless, uniqueIdentity := false }

/-- One step of the timer-driven component: a pending timeout fires (and is
consumed), a new batch is scheduled, or a synchronous store update runs.  A
timeout that is no longer pending can never fire. -/
inductive SchedStep : SchedState → SchedState → Prop where
  | fire (s : SchedState) (t : Timeout) (h : t ∈ s.pending) :
      SchedStep s
        { s with
          frames := activateFrame t.frameId s.frames,
          pending := s.pending.erase t }
  | schedule (s : SchedState) (ids : List Nat) :
      SchedStep s (scheduleFrames ids s)
  | storeOp (s : SchedState) (g : List FrameData → List FrameData) :
      SchedStep s { s with frames := g s.frames }

/-- Reachability in the step semantics. -/
def SchedReachable : SchedState → SchedState → Prop :=
  Relation.ReflTransGen SchedStep

lemma sched_step_batch_bound {s s' : SchedState} (B : Nat) (hstep : SchedStep s s')
    (hb : B ≤ s.nextBatch) (hp : ∀ t ∈ s.pending, B ≤ t.batch) :
    B ≤ s'.nextBatch ∧ ∀ t ∈ s'.pending, B ≤ t.batch := by
  cases hstep with
  | fire t h =>
    exact ⟨hb, fun u hu => hp u (List.mem_of_mem_erase hu)⟩
  | schedule ids =>
    refine ⟨?_, ?_⟩
    · simp only [scheduleFrames, clearTimeouts]
      omega
    · intro u hu
      simp only [scheduleFrames, clearTimeouts, List.mem_map] at hu
      obtain ⟨p, hp2, rfl⟩ := hu
      simpa using hb
  | storeOp g => exact ⟨hb, hp⟩

lemma sched_reachable_batch_bound {s s' : SchedState} (B : Nat)
    (hr : SchedReachable s s') (hb : B ≤ s.nextBatch)
    (hp : ∀ t ∈ s.pending, B ≤ t.batch) :
    B ≤ s'.nextBatch ∧ ∀ t ∈ s'.pending, B ≤ t.batch := by
  induction hr with
  | refl => exact ⟨hb, hp⟩
  | tail hab hbc ih => exact sched_step_batch_bound B hbc ih.1 ih.2

lemma scheduleFrames_pending_frameIds (ids : List Nat) (s : SchedState) :
    (scheduleFrames ids s).pending.map Timeout.frameId = ids := by
  simp only [scheduleFrames, clearTimeouts, List.map_map, Function.comp]
  exact List.enum_map_snd ids

lemma nodup_id_inj {frames : List FrameData}
    (hnodup : (frames.map FrameData.id).Nodup) {f g : FrameData}
    (hf : f ∈ frames) (hg : g ∈ frames) (hid : f.id = g.id) : f = g :=
  List.inj_on_of_nodup_map hnodup hf hg hid

/-- C2: every `scheduleFrames` call (also with an empty id list) first discards
every pending timeout from any earlier batch — the resulting pending set does
not depend on the previous one and holds only current-batch timeouts — and no
timeout from a superseded batch is ever pending again in any reachable state
(a timeout can only fire while pending), so after two back-to-back calls only
the second batch's timeouts exist. -/
theorem scheduler_supersedes (ids : List Nat) (s : SchedState) :
    (∀ p : List Timeout, scheduleFrames ids { s with pending := p } = scheduleFrames ids s) ∧
    (∀ t ∈ (scheduleFrames ids s).pending, t.batch = s.nextBatch) ∧
    (∀ ids2 t, t ∈ (scheduleFrames ids2 (scheduleFrames ids s)).pending →
      t.batch = s.nextBatch + 1 ∧ t.batch ≠ s.nextBatch) ∧
    (∀ s', SchedReachable (scheduleFrames ids s) s' →
      ∀ t ∈ s'.pending, s.nextBatch ≤ t.batch) := by
  refine ⟨?_, ?_, ?_, ?_⟩
  · intro p
    simp [scheduleFrames, clearTimeouts]
  · intro t ht
    simp only [scheduleFrames, clearTimeouts, List.mem_map] at ht
    obtain ⟨q, hq, rfl⟩ := ht
    rfl
  · intro ids2 t ht
    simp only [scheduleFrames, clearTimeouts, List.mem_map] at ht
    obtain ⟨q, hq, rfl⟩ := ht
    exact ⟨rfl, by simp⟩
  · intro s' hr t ht
    refine (sched_reachable_batch_bound s.nextBatch hr ?_ ?_).2 t ht
    · simp [scheduleFrames, clearTimeouts]
    · intro u hu
      simp only [scheduleFrames, clearTimeouts, List.mem_map] at hu
      obtain ⟨q, hq, rfl⟩ := hu
      exact Nat.le_refl _

def exSched2 : SchedState :=
  { frames := [], pending := [{ batch := 0, frameId := 4, fireAt := 0 }],
    nextBatch := 1, loadingDelay := 100 }

/-- Witness for C2 at a concrete state carrying a stale pending timeout. -/
theorem scheduler_supersedes_witness :
    (scheduleFrames [2] { exSched2 with pending := [] } = scheduleFrames [2] exSched2) ∧
    (Timeout.batch { batch := 1, frameId := 2, fireAt := 0 } = exSched2.nextBatch) ∧
    (exSched2.nextBatch ≤ Timeout.batch { batch := 2, frameId := 3, fireAt := 0 }) := by
  have h := scheduler_supersedes [2] exSched2
  refine ⟨h.1 [], h.2.1 _ (by decide), ?_⟩
  exact h.2.2.2 (scheduleFrames [3] (scheduleFrames [2] exSched2))
    (Relation.ReflTransGen.single (SchedStep.schedule _ [3])) _ (by decide)

def exFrames1 : List FrameData :=
  [{ id := 0, currentUrl := "https://a.com", key := 0, isLocked := false,
     status := Status.idle, sessionId := "s0" }]

/-- C1 counterexample: the timeout callback performs no `status == scheduled`
check.  Session 0 has status `idle` (not `scheduled`) at fire time, yet the
activation is not a no-op: the session is set `active` and its generation
bumped, contradicting the claim. -/
theorem activation_ignores_status_cex :
    exFrames1.map FrameData.status = [Status.idle] ∧
    activateFrame 0 exFrames1 =
      [{ id := 0, currentUrl := "https://a.com", key := 1, isLocked := false,
         status := Status.active, sessionId := "s0" }] ∧
    activateFrame 0 exFrames1 ≠ exFrames1 := by decide

/-- C1 amended: when the activation for id `k` fires, every session whose id is
`k` is set `active` with its generation bumped regardless of its current
status, every other session is unchanged, and if no session has id `k` (for
example after a pool reset) the whole pool is unchanged. -/
theorem activation_updates_matching_id (k : Nat) (frames : List FrameData) :
    ((∀ f ∈ frames, f.id ≠ k) → activateFrame k frames = frames) ∧
    (∀ (i : Nat) (f : FrameData), frames[i]? = some f →
      (activateFrame k frames)[i]? =
        some (if f.id = k then { f with status := Status.active, key := f.key + 1 }
              else f)) := by
  constructor
  · intro h
    have hcong : ∀ f ∈ frames,
        (if f.id = k then { f with status := Status.active, key := f.key + 1 } else f) = f :=
      fun f hf => if_neg (h f hf)
    calc frames.map (fun f =>
            if f.id = k then { f with status := Status.active, key := f.key + 1 } else f)
        = frames.map id := List.map_congr_left hcong
      _ = frames := List.map_id frames
  · intro i f hf
    simp [activateFrame, List.getElem?_map, hf]

/-- Witness for C1 amended: a pool without id 1 is unchanged by a stale
activation of id 1, and the activation of id 0 updates session 0 in place. -/
theorem activation_updates_matching_id_witness :
    activateFrame 1 exFrames1 = exFrames1 ∧
    (activateFrame 0 exFrames1)[0]? =
      some { id := 0, currentUrl := "https://a.com", key := 1, isLocked := false,
             status := Status.active, sessionId := "s0" } := by
  refine ⟨(activation_updates_matching_id 1 exFrames1).1 (by decide), ?_⟩
  have h := (activation_updates_matching_id 0 exFrames1).2 0
    { id := 0, currentUrl := "https://a.com", key := 0, isLocked := false,
      status := Status.idle, sessionId := "s0" } rfl
  simpa using h

def exFrames3 : List FrameData :=
  [{ id := 3, currentUrl := "a.com", key := 5, isLocked := false,
     status := Status.idle, sessionId := "s3" }]

/-- C3 counterexample: `handleUrlChange(3, "b.com")` sets the URL, lock and
`active` status of session 3, but leaves its generation at 5 — the claim's
"increments its generation" is false on the code (there is no `key: f.key + 1`
in `handleUrlChange`). -/
theorem seturl_no_generation_bump_cex :
    handleUrlChange 3 "b.com" exFrames3 =
      [{ id := 3, currentUrl := "b.com", key := 5, isLocked := true,
         status := Status.active, sessionId := "s3" }] ∧
    (handleUrlChange 3 "b.com" exFrames3).map FrameData.key = exFrames3.map FrameData.key := by
  decide

/-- C3 amended: `setUrl(id, url)` immediately — in one synchronous store update
that never touches the Scheduler's pending timers or batch counter — sets the
matching session's `rawUrl`, sets `locked = true` and `status = active`, leaves
its generation unchanged, and leaves every other session unchanged. -/
theorem seturl_immediate (id : Nat) (url : String) (s : SchedState) :
    (handleUrlChangeSys id url s).pending = s.pending ∧
    (handleUrlChangeSys id url s).nextBatch = s.nextBatch ∧
    (∀ (i : Nat) (f : FrameData), s.frames[i]? = some f →
      (handleUrlChangeSys id url s).frames[i]? =
        some (if f.id = id then
                { f with currentUrl := url, isLocked := true, status := Status.active }
              else f)) := by
  refine ⟨rfl, rfl, ?_⟩
  intro i f hf
  simp [handleUrlChangeSys, handleUrlChange, List.getElem?_map, hf]

def exSched3 : SchedState :=
  { frames := exFrames3, pending := [{ batch := 0, frameId := 9, fireAt := 800 }],
    nextBatch := 1, loadingDelay := 800 }

/-- Witness for C3 amended: a concrete edit of session 3 while another batch's
timeout is pending. -/
theorem seturl_immediate_witness :
    (handleUrlChangeSys 3 "b.com" exSched3).pending = exSched3.pending ∧
    (handleUrlChangeSys 3 "b.com" exSched3).frames[0]? =
      some { id := 3, currentUrl := "b.com", key := 5, isLocked := true,
             status := Status.active, sessionId := "s3" } := by
  have h := seturl_immediate 3 "b.com" exSched3
  refine ⟨h.1, ?_⟩
  have h2 := h.2.2 0
    { id := 3, currentUrl := "a.com", key := 5, isLocked := false,
      status := Status.idle, sessionId := "s3" } rfl
  simpa using h2

/-- C5 (code evaluated at the failing behaviour): `handleRefresh(id)` bumps the
matching session's generation and changes nothing else — in particular the
session's `sessionId` is never regenerated, in any isolation mode, although the
refresh button's own label reads "Refresh Frame (New Session ID)" and the spec
requires a fresh identity when the mode demands unique identities. -/
theorem refreshone_keeps_identity (id : Nat) (frames : List FrameData) :
    ∀ (i : Nat) (f : FrameData), frames[i]? = some f →
      (handleRefresh id frames)[i]? =
        some (if f.id = id then { f with key := f.key + 1 } else f) := by
  intro i f hf
  simp [handleRefresh, List.getElem?_map, hf]

def exFrames5 : List FrameData :=
  [{ id := 0, currentUrl := "https://a.com", key := 2, isLocked := false,
     status := Status.active, sessionId := "olds" }]

/-- Witness for C5: refreshing session 0 bumps its generation to 3 but keeps
`sessionId = "olds"` — no new identity is generated. -/
theorem refreshone_keeps_identity_witness :
    (handleRefresh 0 exFrames5)[0]? =
      some { id := 0, currentUrl := "https://a.com", key := 3, isLocked := false,
             status := Status.active, sessionId := "olds" } := by
  have h := refreshone_keeps_identity 0 exFrames5 0
    { id := 0, currentUrl := "https://a.com", key := 2, isLocked := false,
      status := Status.active, sessionId := "olds" } rfl
  simpa using h

/-- The selection the claim describes, following its words: sessions with
non-empty `rawUrl` that are either unlocked or already `active`.  (Second
definition for refinement comparison only; the source's filter is
`refreshAllSelect`.) -/
def specRefreshSelect (frames : List FrameData) : List Nat :=
  (frames.filter fun f =>
    f.currentUrl != "" && (!f.isLocked || f.status == Status.active)).map FrameData.id

def exFrames4 : List FrameData :=
  [{ id := 0, currentUrl := "https://a.com", key := 0, isLocked := true,
     status := Status.scheduled, sessionId := "s0" },
   { id := 1, currentUrl := "https://b.com", key := 0, isLocked := true,
     status := Status.idle, sessionId := "s1" }]

def exFresh (n : Nat) : String := "fresh" ++ toString n

/-- C4 counterexample: session 0 is locked and `scheduled` (not `active`), so
the claim says it must not be selected, yet the code submits exactly `[0]` to
the Scheduler (`!f.isLocked || f.status !== 'idle'` also admits locked
`scheduled` sessions); and in ghost mode the unselected session 1 is still
modified — its identity is regenerated. -/
theorem refreshall_selection_cex :
    refreshAllSelect exFrames4 = [0] ∧
    specRefreshSelect exFrames4 = [] ∧
    (handleRefreshAll true exFresh exFrames4).1.map FrameData.sessionId =
      ["fresh0", "fresh1"] ∧
    exFrames4.map FrameData.sessionId = ["s0", "s1"] := by decide

lemma refreshAllSelect_contains {frames : List FrameData}
    (hnodup : (frames.map FrameData.id).Nodup) {f : FrameData} (hf : f ∈ frames) :
    (refreshAllSelect frames).contains f.id =
      (f.currentUrl != "" && (!f.isLocked || f.status != Status.idle)) := by
  rw [Bool.eq_iff_iff]
  constructor
  · intro hcon
    have hm : f.id ∈ refreshAllSelect frames := by
      simpa [List.contains] using hcon
    obtain ⟨g, hg, hgid⟩ := List.mem_map.1 hm
    have hgf : g ∈ frames := (List.mem_filter.1 hg).1
    have hgp := (List.mem_filter.1 hg).2
    have hfg : g = f := nodup_id_inj hnodup hgf hf hgid
    rw [← hfg]
    exact hgp
  · intro hp
    have hm : f.id ∈ refreshAllSelect frames :=
      List.mem_map.2 ⟨f, List.mem_filter.2 ⟨hf, hp⟩, rfl⟩
    simpa [List.contains] using hm

/-- C4 amended: `refreshAll` selects exactly the sessions with non-empty
`rawUrl` that are unlocked or whose status is not `idle`; each selected
session's status is set to `scheduled`; when the isolation mode requires unique
identities every session's identity is regenerated, selected or not; the
ordered list of selected ids is what reaches the Scheduler's pending batch; and
apart from that identity regeneration no unselected session is modified. -/
theorem refreshall_amended (ghost : Bool) (freshId : Nat → String) (frames : List FrameData)
    (hnodup : (frames.map FrameData.id).Nodup) :
    ((handleRefreshAll ghost freshId frames).2 = refreshAllSelect frames) ∧
    (∀ s : SchedState, s.frames = frames →
      (handleRefreshAllSys ghost freshId s).pending.map Timeout.frameId =
        refreshAllSelect frames) ∧
    (∀ (i : Nat) (f : FrameData), frames[i]? = some f →
      (handleRefreshAll ghost freshId frames).1[i]? =
        some (
          let f1 := if ghost then { f with sessionId := freshId f.id } else f
          if f.currentUrl != "" && (!f.isLocked || f.status != Status.idle) then
            { f1 with status := Status.scheduled }
          else f1)) := by
  refine ⟨?_, ?_, ?_⟩
  · rfl
  · intro s hs
    simp only [handleRefreshAllSys, scheduleFrames_pending_frameIds, hs]
    rfl
  · intro i f hf
    have hmem : f ∈ frames := List.getElem?_mem hf
    have hc := refreshAllSelect_contains hnodup hmem
    have hiff : f.id ∈ refreshAllSelect frames ↔
        (¬f.currentUrl = "" ∧ (f.isLocked = false ∨ ¬f.status = Status.idle)) := by
      have hc2 : ((refreshAllSelect frames).contains f.id = true) ↔
          ((f.currentUrl != "" && (!f.isLocked || f.status != Status.idle)) = true) := by
        rw [hc]
      simpa [List.contains] using hc2
    cases ghost with
    | false =>
      simp only [handleRefreshAll, List.getElem?_map, hf, Option.map_some', if_neg, Bool.false_eq_true,
        ite_false, ite_true]
      simp [hiff]
    | true =>
      simp only [handleRefreshAll, List.getElem?_map, hf, Option.map_some', ite_true]
      simp [hiff]

def exSched4 : SchedState :=
  { frames := exFrames4, pending := [], nextBatch := 0, loadingDelay := 200 }

/-- Witness for C4 amended at the concrete two-session pool: session 0 (locked,
scheduled) is selected and handed to the Scheduler; session 1 (locked, idle) is
unselected, keeps its status, and only its identity is regenerated. -/
theorem refreshall_amended_witness :
    (handleRefreshAll true exFresh exFrames4).2 = refreshAllSelect exFrames4 ∧
    (handleRefreshAllSys true exFresh exSched4).pending.map Timeout.frameId =
      refreshAllSelect exFrames4 ∧
    (handleRefreshAll true exFresh exFrames4).1[1]? =
      some { id := 1, currentUrl := "https://b.com", key := 0, isLocked := true,
             status := Status.idle, sessionId := exFresh 1 } := by
  have h := refreshall_amended true exFresh exFrames4 (by decide)
  refine ⟨h.1, h.2.1 exSched4 rfl, ?_⟩
  have h2 := h.2.2 1
    { id := 1, currentUrl := "https://b.com", key := 0, isLocked := true,
      status := Status.idle, sessionId := "s1" } rfl
  rw [h2]
  decide

/-- C6 counterexample: the code tests emptiness before trimming, so the
whitespace-only input `"   "` — whose trimmed form is empty — is not mapped to
the empty string but to `"https://"`. -/
theorem urltransform_trim_after_empty_check_cex :
    jsTrim "   " = "" ∧
    getDisplayUrl false "   " "sid" 0 = "https://" ∧
    getDisplayUrl false "   " "sid" 0 ≠ "" ∧
    getDisplayUrlCB false "   " 0 = "https://" := by decide

/-- C6 amended: the transformer returns the empty string exactly for the
(untrimmed) empty input; every non-empty input is trimmed, and when the
trimmed string starts with neither `http://` nor `https://` the result is the
trimmed string with `https://` prepended (so a whitespace-only input yields
`"https://"`). -/
theorem urltransform_normalizes (g : Bool) (s sid : String) (now : Nat) :
    (getDisplayUrl g "" sid now = "") ∧
    (getDisplayUrlCB g "" now = "") ∧
    (s ≠ "" → jsStartsWith (jsTrim s) "http://" = false →
      jsStartsWith (jsTrim s) "https://" = false →
      getDisplayUrl false s sid now = "https://" ++ jsTrim s) ∧
    (s ≠ "" → jsStartsWith (jsTrim s) "http://" = false →
      jsStartsWith (jsTrim s) "https://" = false →
      getDisplayUrlCB false s now = "https://" ++ jsTrim s) := by
  refine ⟨by simp [getDisplayUrl], by simp [getDisplayUrlCB], ?_, ?_⟩
  · intro h1 h2 h3
    have hs : (s == "") = false := beq_eq_false_iff_ne.2 h1
    simp [getDisplayUrl, hs, h2, h3]
  · intro h1 h2 h3
    have hs : (s == "") = false := beq_eq_false_iff_ne.2 h1
    simp [getDisplayUrlCB, hs, h2, h3]

/-- Witness for C6 amended at `""` and `"example.com"`. -/
theorem urltransform_normalizes_witness :
    getDisplayUrl false "" "sid" 3 = "" ∧
    getDisplayUrl false "example.com" "sid" 3 = "https://" ++ jsTrim "example.com" := by
  have h := urltransform_normalizes false "example.com" "sid" 3
  exact ⟨(urltransform_normalizes false "" "sid" 3).1,
    h.2.2.1 (by decide) (by decide) (by decide)⟩

/-- C7 counterexample: with the isolation bundle active the transformer embeds
`Date.now()`, so two evaluations of the very same raw URL, mode and identity at
different instants return different strings — the function is not pure in the
claimed sense. -/
theorem urltransform_time_dependent_cex :
    getDisplayUrl true "example.com" "abc123" 0 ≠ getDisplayUrl true "example.com" "abc123" 1 ∧
    getDisplayUrlCB true "example.com" 0 ≠ getDisplayUrlCB true "example.com" 1 := by decide

/-- C7 amended: the transformer is a deterministic function of raw URL,
isolation mode, identity and the current timestamp; when the mode requests
neither unique identity nor cache busting, the result is independent of both
the identity and the timestamp. -/
theorem urltransform_pure_without_isolation (u sid1 sid2 : String) (n1 n2 : Nat) :
    getDisplayUrl false u sid1 n1 = getDisplayUrl false u sid2 n2 ∧
    getDisplayUrlCB false u n1 = getDisplayUrlCB false u n2 :=
  ⟨rfl, rfl⟩

/-- C8: for every configuration either revision can realise, the same-origin /
persistent-storage capability is granted exactly when the corresponding
isolation-mode set contains neither `stateless` nor `uniqueIdentity`; in
particular the stateless toggle excludes it and the empty mode includes it, and
stripping `allow-same-origin` from any granted set leaves exactly the base
capability set, so it is the sole distinguishing capability. -/
theorem capability_same_origin_iff (g st cb : Bool) :
    (sameOriginGranted (getSandboxRules g) =
      (!(ghostIsolation g).stateless && !(ghostIsolation g).uniqueIdentity)) ∧
    (sameOriginGranted (getSandboxRulesStateless st) =
      (!(togglesIsolation st cb).stateless && !(togglesIsolation st cb).uniqueIdentity)) ∧
    sameOriginGranted (getSandboxRulesStateless true) = false ∧
    sameOriginGranted (getSandboxRulesStateless false) = true ∧
    ((capTokens (getSandboxRules g)).filter (fun c => c != "allow-same-origin") =
      capTokens sandboxBase) ∧
    ((capTokens (getSandboxRulesStateless st)).filter (fun c => c != "allow-same-origin") =
      capTokens sandboxBase) := by
  cases g <;> cases st <;> cases cb <;> decide

/-- C10: the granted capability set always contains `allow-modals` on top of
the five capabilities the specification lists, and in every mode the granted
set differs from the standard (empty-mode) set at most in the same-origin
capability. -/
theorem sandbox_modals_and_sole_difference (g st : Bool) :
    "allow-modals" ∈ capTokens sandboxBase ∧
    capTokens sandboxBase =
      ["allow-scripts", "allow-forms", "allow-popups", "allow-modals",
       "allow-popups-to-escape-sandbox", "allow-downloads"] ∧
    "allow-modals" ∈ capTokens (getSandboxRules g) ∧
    (∀ c : String, c ≠ "allow-same-origin" →
      (c ∈ capTokens (getSandboxRules g) ↔ c ∈ capTokens (getSandboxRules false))) ∧
    (∀ c : String, c ≠ "allow-same-origin" →
      (c ∈ capTokens (getSandboxRulesStateless st) ↔
        c ∈ capTokens (getSandboxRulesStateless false))) := by
  have hbase : capTokens (getSandboxRules false) =
      capTokens sandboxBase ++ ["allow-same-origin"] := by decide
  have hghost : capTokens (getSandboxRules true) = capTokens sandboxBase := by decide
  have hbase2 : capTokens (getSandboxRulesStateless false) =
      capTokens sandboxBase ++ ["allow-same-origin"] := by decide
  have hghost2 : capTokens (getSandboxRulesStateless true) = capTokens sandboxBase := by decide
  refine ⟨by decide, by decide, by cases g <;> decide, ?_, ?_⟩
  · intro c hc
    cases g with
    | false => exact Iff.rfl
    | true =>
      rw [hghost, hbase]
      simp [List.mem_append, hc]
  · intro c hc
    cases st with
    | false => exact Iff.rfl
    | true =>
      rw [hghost2, hbase2]
      simp [List.mem_append, hc]

/-- Witness for C10: the script capability is granted alike in ghost and
standard mode, and `allow-modals` is granted in ghost mode. -/
theorem sandbox_modals_and_sole_difference_witness :
    ("allow-scripts" ∈ capTokens (getSandboxRules true) ↔
      "allow-scripts" ∈ capTokens (getSandboxRules false)) ∧
    "allow-modals" ∈ capTokens (getSandboxRules true) := by
  have h := sandbox_modals_and_sole_difference true true
  exact ⟨h.2.2.2.1 "allow-scripts" (by decide), h.2.2.1⟩

/-- C9: when sync is enabled and the master URL non-empty, the master-URL
effect never touches a locked session — its record (in particular `rawUrl` and
`status`) is unchanged and its id is absent from the batch handed to the
Scheduler — while every unlocked session receives the new URL, is marked
`scheduled`, and its id is in the Scheduler's batch. -/
theorem master_sync_locked_untouched (sync : Bool) (url : String) (s : SchedState)
    (hs : sync = true) (hu : url ≠ "")
    (hnodup : (s.frames.map FrameData.id).Nodup) :
    (∀ (i : Nat) (f : FrameData), s.frames[i]? = some f → f.isLocked = true →
      (syncEffectSys sync url s).frames[i]? = some f ∧
      f.id ∉ (syncEffectSys sync url s).pending.map Timeout.frameId) ∧
    (∀ (i : Nat) (f : FrameData), s.frames[i]? = some f → f.isLocked = false →
      (syncEffectSys sync url s).frames[i]? =
        some { f with currentUrl := url, status := Status.scheduled } ∧
      f.id ∈ (syncEffectSys sync url s).pending.map Timeout.frameId) := by
  subst hs
  have hne : (url == "") = false := beq_eq_false_iff_ne.2 hu
  have hcond : (true && url != "") = true := by simp [bne, hne]
  have hpend : (syncEffectSys true url s).pending.map Timeout.frameId =
      (s.frames.filter fun f => !f.isLocked).map FrameData.id := by
    simp [syncEffectSys, syncEffect, hcond, scheduleFrames_pending_frameIds]
  have hframes : (syncEffectSys true url s).frames =
      s.frames.map (fun f => if f.isLocked then f
        else { f with currentUrl := url, status := Status.scheduled }) := by
    simp [syncEffectSys, syncEffect, hcond, scheduleFrames, clearTimeouts]
  constructor
  · intro i f hf hlock
    refine ⟨?_, ?_⟩
    · rw [hframes]
      simp [List.getElem?_map, hf, hlock]
    · rw [hpend]
      intro hmemb
      obtain ⟨g, hgmem, hgid⟩ := List.mem_map.1 hmemb
      have hgf : g ∈ s.frames := (List.mem_filter.1 hgmem).1
      have hgunlocked := (List.mem_filter.1 hgmem).2
      have hge : g = f := nodup_id_inj hnodup hgf (List.getElem?_mem hf) hgid
      rw [hge, hlock] at hgunlocked
      simp at hgunlocked
  · intro i f hf hlock
    refine ⟨?_, ?_⟩
    · rw [hframes]
      simp [List.getElem?_map, hf, hlock]
    · rw [hpend]
      exact List.mem_map.2 ⟨f,
        List.mem_filter.2 ⟨List.getElem?_mem hf, by simp [hlock]⟩, rfl⟩

def exLocked9 : FrameData :=
  { id := 1, currentUrl := "https://old.com", key := 0, isLocked := true,
    status := Status.active, sessionId := "s1" }

def exUnlocked9 : FrameData :=
  { id := 0, currentUrl := "", key := 0, isLocked := false,
    status := Status.idle, sessionId := "s0" }

def exSched9 : SchedState :=
  { frames := [exUnlocked9, exLocked9], pending := [], nextBatch := 0, loadingDelay := 100 }

/-- Witness for C9: locking session 1 and then syncing `"a.com"` leaves session
1 untouched and unscheduled, while session 0 is updated and scheduled. -/
theorem master_sync_locked_untouched_witness :
    ((syncEffectSys true "a.com" exSched9).frames[1]? = some exLocked9 ∧
      exLocked9.id ∉ (syncEffectSys true "a.com" exSched9).pending.map Timeout.frameId) ∧
    ((syncEffectSys true "a.com" exSched9).frames[0]? =
        some { exUnlocked9 with currentUrl := "a.com", status := Status.scheduled } ∧
      exUnlocked9.id ∈ (syncEffectSys true "a.com" exSched9).pending.map Timeout.frameId) := by
  have h := master_sync_locked_untouched true "a.com" exSched9 rfl (by decide) (by decide)
  exact ⟨h.1 1 exLocked9 rfl rfl, h.2 0 exUnlocked9 rfl rfl⟩
